import Mathlib

/-!
Shallow embedding of the btmnr orchestration engine (src/btmnr/src):
the policy store with hot-reload/rollback (config.rs), and the audio
decision loop with idle-timeout, backoff and error accounting (main.rs).
Machine integers (`u64`) are modelled as `Nat` (no arithmetic overflows
occur in the embedded code paths); fallible Rust code returning
`Result` is modelled with `Except`; strings keep Rust's byte-length
semantics via `String.utf8ByteSize`.
-/

namespace Btmnr

/-- The `Config` struct of config.rs: `inactivity_timeout: u64`,
`auto_connect: bool`, `device_address: String`. -/
structure Config where
  inactivity_timeout : Nat
  auto_connect : Bool
  device_address : String
  deriving Repr, DecidableEq

/-- Errors of the config module. The Rust code uses boxed string errors
produced on three distinct paths of `Config::load`/`save`: file-read
failure, JSON-parse failure, and validation failure. -/
inductive ConfigError where
  | readError : ConfigError
  | parseError : ConfigError
  | validationError : String → ConfigError
  deriving Repr, DecidableEq

/-- `Config::validate` (config.rs): rejects `inactivity_timeout == 0`;
rejects when `!self.device_address.contains(':') || self.device_address.len() != 17`
(Rust `len()` is the UTF-8 byte length, and `contains(':')` is character
membership, modelled on the character list). -/
def Config.validate (c : Config) : Except ConfigError Unit :=
  if c.inactivity_timeout = 0 then
    .error (.validationError "inactivity_timeout must be greater than 0")
  else if !(c.device_address.toList.contains ':') || c.device_address.utf8ByteSize ≠ 17 then
    .error (.validationError "Invalid device address format")
  else
    .ok ()

/-- Modelled from the spec: an uppercase hexadecimal digit, one character
of a canonical `deviceAddress` byte-pair. Used only to compare the code's
validation against the spec's canonical-form rule. -/
def isHexUpper (c : Char) : Bool :=
  ('0' ≤ c && c ≤ '9') || ('A' ≤ c && c ≤ 'F')

/-- Modelled from the spec: "12 hex digits in 6 colon-separated uppercase
pairs (length exactly 17)", on a character list. Used only to compare the
code's validation against the spec's canonical-form rule. -/
def isCanonicalList : List Char → Bool
  | [a1, a2, s1, b1, b2, s2, d1, d2, s3, e1, e2, s4, f1, f2, s5, g1, g2] =>
    isHexUpper a1 && isHexUpper a2 && (s1 == ':') &&
    isHexUpper b1 && isHexUpper b2 && (s2 == ':') &&
    isHexUpper d1 && isHexUpper d2 && (s3 == ':') &&
    isHexUpper e1 && isHexUpper e2 && (s4 == ':') &&
    isHexUpper f1 && isHexUpper f2 && (s5 == ':') &&
    isHexUpper g1 && isHexUpper g2
  | _ => false

/-- Modelled from the spec: the canonical string form of a
`deviceAddress`. -/
def isCanonicalAddress (s : String) : Bool :=
  isCanonicalList s.toList

/-- JSON values, as far as the persisted policy file needs them
(serde_json on the three-field `Config` struct). -/
inductive Json where
  | num : Nat → Json
  | bool : Bool → Json
  | str : String → Json
  | obj : List (String × Json) → Json

/-- serde serialization of `Config` (derive `Serialize`): a JSON object
with the three fields in declaration order. -/
def configToJson (c : Config) : Json :=
  .obj [("inactivity_timeout", .num c.inactivity_timeout),
        ("auto_connect", .bool c.auto_connect),
        ("device_address", .str c.device_address)]

/-- First binding of a key in a JSON object's field list. -/
def jsonLookup : List (String × Json) → String → Option Json
  | [], _ => none
  | (k, v) :: rest, key => if k = key then some v else jsonLookup rest key

/-- serde deserialization of `Config` (derive `Deserialize`): requires a
JSON object holding all three fields at their expected types. -/
def configFromJson : Json → Option Config
  | .obj fields =>
    match jsonLookup fields "inactivity_timeout", jsonLookup fields "auto_connect",
          jsonLookup fields "device_address" with
    | some (.num t), some (.bool b), some (.str a) =>
      some { inactivity_timeout := t, auto_connect := b, device_address := a }
    | _, _, _ => none
  | _ => none

/-- The externally-editable persisted policy file "config.json": either
unreadable (read fails), readable but not parseable as the expected JSON,
or holding a JSON value. -/
inductive FileContent where
  | missing : FileContent
  | malformed : FileContent
  | json : Json → FileContent

/-- `Config::load` (config.rs): read the file (error on read failure),
parse it (error on parse failure), validate, and return the Config. -/
def Config.load : FileContent → Except ConfigError Config
  | .missing => .error .readError
  | .malformed => .error .parseError
  | .json j =>
    match configFromJson j with
    | none => .error .parseError
    | some c =>
      match c.validate with
      | .error e => .error e
      | .ok _ => .ok c

/-- `Config::save` (config.rs): validate first (returning the validation
error without touching the file), then serialize and write, replacing the
file content. Returns the call's result paired with the file state after
the call. -/
def Config.saveToFile (c : Config) (f : FileContent) :
    Except ConfigError Unit × FileContent :=
  match c.validate with
  | .error e => (.error e, f)
  | .ok _ => (.ok (), .json (configToJson c))

/-- `Config::default` (config.rs): the hardcoded fallback policy. -/
def Config.default : Config :=
  { inactivity_timeout := 300
    auto_connect := true
    device_address := "XX:XX:XX:XX:XX:XX" }

/-- `ConfigManager` (config.rs): the current policy read by the decision
loop, and the last-known-good backup used for rollback. -/
structure ConfigManager where
  current_config : Config
  backup_config : Config
  deriving Repr, DecidableEq

/-- `ConfigManager::new` (config.rs): `Config::load().unwrap_or_default()`;
both `current` and `backup` start as clones of that one value. -/
def ConfigManager.new (f : FileContent) : ConfigManager :=
  let config : Config :=
    match Config.load f with
    | .ok c => c
    | .error _ => Config.default
  { current_config := config, backup_config := config }

/-- `ConfigManager::get_config` (config.rs): snapshot of `current`. -/
def ConfigManager.get_config (m : ConfigManager) : Config :=
  m.current_config

/-- One iteration of the watcher loop body in
`ConfigManager::start_config_watcher` (config.rs), triggered by a change
notification with the file then holding `f`: on successful `load`, set
`backup := current; current := new`; on failed `load`, set
`current := backup` (the code's "Restored previous working configuration"
path), leaving `backup` as it was. -/
def watcherStep (m : ConfigManager) (f : FileContent) : ConfigManager :=
  match Config.load f with
  | .ok newConfig =>
    { current_config := newConfig, backup_config := m.current_config }
  | .error _ =>
    { current_config := m.backup_config, backup_config := m.backup_config }

/-- Store states reachable from startup with initial file `f0`: the state
built by `ConfigManager::new`, closed under watcher reload steps (each
with an arbitrary file content at notification time). -/
inductive Reachable (f0 : FileContent) : ConfigManager → Prop where
  | init : Reachable f0 (ConfigManager.new f0)
  | step : ∀ m f, Reachable f0 m → Reachable f0 (watcherStep m f)

/-- Sensor error kinds of audio.rs (`AudioError`); the Windows-API
wrapper case is collapsed into one constructor. -/
inductive SensorError where
  | enumeratorError : SensorError
  | endpointError : SensorError
  | sessionManagerError : SensorError
  | sessionEnumError : SensorError
  | nativeError : SensorError
  deriving Repr, DecidableEq

/-- Actuator error kinds of bluetooth.rs (`BluetoothError`); the
Windows-API wrapper case is collapsed into one constructor. -/
inductive ActuatorError where
  | deviceNotFound : ActuatorError
  | authenticationError : ActuatorError
  | serviceStateError : ActuatorError
  | enumerationError : ActuatorError
  | nativeActuatorError : ActuatorError
  deriving Repr, DecidableEq

/-- The boxed error propagated out of `check_and_handle_audio` (main.rs):
either the sensor error from `AudioMonitor::is_audio_playing()?` or an
actuator error from a connect/disconnect call. -/
inductive TickError where
  | sensorError : SensorError → TickError
  | actuatorError : ActuatorError → TickError
  deriving Repr, DecidableEq

/-- A link-actuation command issued to the paired device, carrying the
target address. -/
inductive Command where
  | connect : String → Command
  | disconnect : String → Command
  deriving Repr, DecidableEq

/-- The environment of one tick of the monitor loop: the policy snapshot
returned by `get_config()`, the monotonic clock reading (seconds), the
outcome of `AudioMonitor::is_audio_playing()`, and the outcomes the
actuator would return for a connect and a disconnect call issued on this
tick. -/
structure TickInput where
  config : Config
  now : Nat
  sensor : Except SensorError Bool
  connectResult : Except ActuatorError Unit
  disconnectResult : Except ActuatorError Unit

/-- `BluetoothManager::check_and_handle_audio` (main.rs). Mirrors the
code: a sensor error propagates via `?` at once (timer untouched, no
command); on `active`, the timer is set to `now` and, when
`auto_connect`, a connect is issued (its error propagating after
issuance); on inactive, a disconnect is issued iff
`elapsed > inactivity_timeout` seconds. Modelled from the spec: the
`ensure_connected` and `disconnect_device` helper bodies are not in src/
(main.rs calls them); per the spec they invoke
`LinkActuator.connect/disconnect(policy.deviceAddress)`, embedded here as
issuing the command with the snapshot's address and returning the tick's
actuator outcome. Returns (result, new timer value, commands issued). -/
def check_and_handle_audio (last_activity : Nat) (config : Config)
    (inp : TickInput) : Except TickError Unit × Nat × List Command :=
  match inp.sensor with
  | .error e => (.error (.sensorError e), last_activity, [])
  | .ok true =>
    if config.auto_connect then
      match inp.connectResult with
      | .ok _ => (.ok (), inp.now, [.connect config.device_address])
      | .error e =>
        (.error (.actuatorError e), inp.now, [.connect config.device_address])
    else
      (.ok (), inp.now, [])
  | .ok false =>
    if inp.now - last_activity > config.inactivity_timeout then
      match inp.disconnectResult with
      | .ok _ => (.ok (), last_activity, [.disconnect config.device_address])
      | .error e =>
        (.error (.actuatorError e), last_activity,
         [.disconnect config.device_address])
    else
      (.ok (), last_activity, [])

/-- The loop-local mutable state of `monitor_audio_activity` (main.rs):
`last_activity` and `consecutive_errors`. -/
structure LoopState where
  last_activity : Nat
  consecutive_errors : Nat
  deriving Repr, DecidableEq

/-- Observable outcome of one loop iteration: the state carried to the
next tick, the commands issued, and the total seconds slept before the
next tick begins. -/
structure TickResult where
  state : LoopState
  commands : List Command
  sleepSeconds : Nat
  deriving Repr, DecidableEq

/-- One iteration of the `while running` body of
`monitor_audio_activity` (main.rs): run `check_and_handle_audio`; on
`Ok`, reset `consecutive_errors` to 0; on `Err`, increment it and, when
it has reached 3, sleep an extra 30 seconds and reset it to 0; then the
baseline 1-second sleep. -/
def monitorStep (s : LoopState) (inp : TickInput) : TickResult :=
  let r := check_and_handle_audio s.last_activity inp.config inp
  match r.1 with
  | .ok _ =>
    { state := { last_activity := r.2.1, consecutive_errors := 0 }
      commands := r.2.2
      sleepSeconds := 1 }
  | .error _ =>
    let errs := s.consecutive_errors + 1
    if errs ≥ 3 then
      { state := { last_activity := r.2.1, consecutive_errors := 0 }
        commands := r.2.2
        sleepSeconds := 30 + 1 }
    else
      { state := { last_activity := r.2.1, consecutive_errors := errs }
        commands := r.2.2
        sleepSeconds := 1 }

/-- Loop state at entry of `monitor_audio_activity` (main.rs):
`last_activity = Instant::now()` (the loop's start time) and
`consecutive_errors = 0`. -/
def initLoopState (start : Nat) : LoopState :=
  { last_activity := start, consecutive_errors := 0 }

/-- Run of the monitor loop over a finite trace of tick environments,
yielding each tick's observable outcome. -/
def runMonitor (s : LoopState) : List TickInput → List TickResult
  | [] => []
  | inp :: rest =>
    let r := monitorStep s inp
    r :: runMonitor r.state rest

/-! ## Helper lemmas -/

theorem utf8Size_eq_one (c : Char) (h : c.val ≤ 127) : c.utf8Size = 1 := by
  unfold Char.utf8Size
  rw [if_pos]
  exact h

theorem isHexUpper_le (c : Char) (h : isHexUpper c = true) : c.val ≤ 127 := by
  simp [isHexUpper] at h
  show c.val.val.val ≤ 127
  rcases h with ⟨_, h2⟩ | ⟨_, h2⟩
  · exact Nat.le_trans (show c.val.val.val ≤ 57 from h2) (by omega)
  · exact Nat.le_trans (show c.val.val.val ≤ 70 from h2) (by omega)

/-- Characterization of `Config::validate`'s accepting branch. -/
theorem validate_ok_iff (c : Config) :
    c.validate = .ok () ↔
      c.inactivity_timeout ≠ 0 ∧ ':' ∈ c.device_address.toList ∧
        c.device_address.utf8ByteSize = 17 := by
  by_cases h0 : c.inactivity_timeout = 0
  · simp [Config.validate, h0]
  · by_cases h1 : ':' ∈ c.device_address.toList
    · by_cases h2 : c.device_address.utf8ByteSize = 17
      · simp [Config.validate, h0, h1, h2]
      · simp [Config.validate, h0, h1, h2]
    · simp [Config.validate, h0, h1]

/-- A canonical address list contains a colon and has 17 one-byte
characters. -/
theorem canonicalList_mem_size (l : List Char) (h : isCanonicalList l = true) :
    ':' ∈ l ∧ String.utf8Len l = 17 := by
  have hsz : ∀ c : Char, isHexUpper c = true → c.utf8Size = 1 :=
    fun c hc => utf8Size_eq_one c (isHexUpper_le c hc)
  have hcolon : (':' : Char).utf8Size = 1 := utf8Size_eq_one _ (by decide)
  unfold isCanonicalList at h
  split at h
  · simp only [Bool.and_eq_true, beq_iff_eq] at h
    obtain ⟨⟨⟨⟨⟨⟨⟨⟨⟨⟨⟨⟨⟨⟨⟨⟨ha1, ha2⟩, hs1⟩, hb1⟩, hb2⟩, hs2⟩, hd1⟩, hd2⟩,
      hs3⟩, he1⟩, he2⟩, hs4⟩, hf1⟩, hf2⟩, hs5⟩, hg1⟩, hg2⟩ := h
    subst hs1 hs2 hs3 hs4 hs5
    refine ⟨by simp, ?_⟩
    simp [String.utf8Len_cons, hsz _ ha1, hsz _ ha2, hsz _ hb1, hsz _ hb2,
      hsz _ hd1, hsz _ hd2, hsz _ he1, hsz _ he2, hsz _ hf1, hsz _ hf2,
      hsz _ hg1, hsz _ hg2, hcolon]
  · exact absurd h (by simp)

theorem utf8ByteSize_eq_utf8Len (s : String) :
    s.utf8ByteSize = String.utf8Len s.toList := by
  cases s with
  | mk data => simp [String.toList]

/-- `Config::validate` only ever fails with a validation error. -/
theorem validate_error_shape (c : Config) (e : ConfigError)
    (h : c.validate = .error e) : ∃ msg, e = .validationError msg := by
  unfold Config.validate at h
  split at h
  · exact ⟨_, by injection h with h2; exact h2.symm⟩
  · split at h
    · exact ⟨_, by injection h with h2; exact h2.symm⟩
    · exact absurd h (by simp)

/-! ## Claim C2 — validation rules -/

/-- C2 counterexample: the policy with `inactivity_timeout = 1` and
`device_address = "zz:zz:zz:zz:zz:zz"` passes `Config::validate` although
its address is not in canonical form (lowercase, non-hex), so validation
does not reject every Policy whose address misses the canonical
uppercase-hex-pair pattern. -/
theorem validate_accepts_noncanonical_address :
    Config.validate
        { inactivity_timeout := 1, auto_connect := true,
          device_address := "zz:zz:zz:zz:zz:zz" } = .ok ()
    ∧ isCanonicalAddress "zz:zz:zz:zz:zz:zz" = false :=
  ⟨rfl, by decide⟩

/-- C2 (amended): validation rejects every Policy with
`inactivity_timeout = 0`; for the address it checks exactly that a colon
occurs and that the byte length is 17 — every Policy passing both checks
is accepted, in particular every Policy with a canonical address and a
nonzero timeout, but non-canonical 17-byte colon-containing addresses are
accepted as well. -/
theorem validate_characterization (c : Config) :
    (c.validate = .ok () ↔
      c.inactivity_timeout ≠ 0 ∧ ':' ∈ c.device_address.toList ∧
        c.device_address.utf8ByteSize = 17)
    ∧ (isCanonicalAddress c.device_address = true →
        c.inactivity_timeout ≠ 0 → c.validate = .ok ()) := by
  refine ⟨validate_ok_iff c, fun hc h0 => ?_⟩
  obtain ⟨hmem, hsz⟩ := canonicalList_mem_size _ hc
  exact (validate_ok_iff c).mpr
    ⟨h0, hmem, by rw [utf8ByteSize_eq_utf8Len]; exact hsz⟩

/-- Witness for `validate_characterization` at a concrete canonical
policy. -/
theorem validate_characterization_witness :
    Config.validate
      { inactivity_timeout := 300, auto_connect := true,
        device_address := "AA:BB:CC:DD:EE:FF" } = .ok () :=
  (validate_characterization
    { inactivity_timeout := 300, auto_connect := true,
      device_address := "AA:BB:CC:DD:EE:FF" }).2 (by decide) (by decide)

/-! ## Claim C5 — save/load round trip -/

/-- C5: for every Policy that passes validation, saving it and then
loading yields the same Policy (all three fields equal). -/
theorem load_save_round_trip (c : Config) (f : FileContent)
    (h : c.validate = .ok ()) :
    Config.load (c.saveToFile f).2 = .ok c := by
  simp [Config.saveToFile, h, Config.load, configFromJson, configToJson,
    jsonLookup]

/-- Witness for `load_save_round_trip` at a concrete valid policy. -/
theorem load_save_round_trip_witness :
    Config.load ((Config.saveToFile
        { inactivity_timeout := 300, auto_connect := true,
          device_address := "AA:BB:CC:DD:EE:FF" } .missing)).2 =
      .ok { inactivity_timeout := 300, auto_connect := true,
            device_address := "AA:BB:CC:DD:EE:FF" } :=
  load_save_round_trip _ .missing rfl

/-! ## Claim C7 — startup fallback to the hardcoded default -/

/-- C7: if the startup load fails, the store is built from the hardcoded
default policy (300 seconds, auto-connect on, placeholder address), and
both `current` and `backup` initially hold that default. -/
theorem new_falls_back_to_default (f : FileContent) (e : ConfigError)
    (h : Config.load f = .error e) :
    ConfigManager.new f =
      { current_config := Config.default, backup_config := Config.default }
    ∧ Config.default =
      { inactivity_timeout := 300, auto_connect := true,
        device_address := "XX:XX:XX:XX:XX:XX" } := by
  constructor
  · simp [ConfigManager.new, h]
  · rfl

/-- Witness for `new_falls_back_to_default` at an unreadable file. -/
theorem new_falls_back_to_default_witness :
    ConfigManager.new .missing =
      { current_config := Config.default, backup_config := Config.default }
    ∧ Config.default =
      { inactivity_timeout := 300, auto_connect := true,
        device_address := "XX:XX:XX:XX:XX:XX" } :=
  new_falls_back_to_default .missing .readError rfl

/-! ## Claim C10 — save validates before writing -/

/-- C10: `Config::save` validates before writing: an invalid Policy makes
it return the validation error, and the persisted file is untouched. -/
theorem save_rejects_invalid (c : Config) (f : FileContent) (e : ConfigError)
    (h : c.validate = .error e) :
    c.saveToFile f = (.error e, f) ∧ ∃ msg, e = .validationError msg := by
  constructor
  · simp [Config.saveToFile, h]
  · exact validate_error_shape c e h

/-- Witness for `save_rejects_invalid` at a zero-timeout policy. -/
theorem save_rejects_invalid_witness :
    Config.saveToFile
        { inactivity_timeout := 0, auto_connect := true,
          device_address := "AA:BB:CC:DD:EE:FF" } .missing =
      (.error (.validationError "inactivity_timeout must be greater than 0"),
       .missing)
    ∧ ∃ msg, ConfigError.validationError
        "inactivity_timeout must be greater than 0" =
          .validationError msg :=
  save_rejects_invalid _ .missing _ rfl

/-! ## Claim C1 — rollback on failed reload -/

/-- C1 (amended): after any failed reload attempt, on every store state,
`get()` returns the backup policy (`current := backup`), and the backup is
unaffected; this equals the policy current immediately before the failure
only in states where `current = backup`. -/
theorem failed_reload_restores_backup (m : ConfigManager) (f : FileContent)
    (e : ConfigError) (h : Config.load f = .error e) :
    (watcherStep m f).get_config = m.backup_config
    ∧ (watcherStep m f).backup_config = m.backup_config := by
  simp [watcherStep, ConfigManager.get_config, h]

/-- Witness for `failed_reload_restores_backup`: a malformed edit right
after startup. -/
theorem failed_reload_restores_backup_witness :
    (watcherStep (ConfigManager.new .missing) .malformed).get_config =
      (ConfigManager.new .missing).backup_config
    ∧ (watcherStep (ConfigManager.new .missing) .malformed).backup_config =
      (ConfigManager.new .missing).backup_config :=
  failed_reload_restores_backup (ConfigManager.new .missing) .malformed
    .parseError rfl

/-- Store state reached from startup (unreadable file, hence the default
policy) followed by one successful reload of a 600-second policy. -/
def storeAfterReload : ConfigManager :=
  watcherStep (ConfigManager.new .missing)
    (.json (configToJson
      { inactivity_timeout := 600, auto_connect := true,
        device_address := "AA:BB:CC:DD:EE:FF" }))

/-- C1 counterexample: `storeAfterReload` is reachable (one successful
reload after startup), yet a failed reload from a malformed file changes
what `get()` returns — `current` reverts to the stale backup (the default
policy), not to the valid policy that was current immediately before the
failed attempt. -/
theorem failed_reload_changes_current :
    Reachable .missing storeAfterReload
    ∧ Config.load .malformed = .error .parseError
    ∧ (watcherStep storeAfterReload .malformed).get_config ≠
        storeAfterReload.get_config := by
  refine ⟨Reachable.step _ _ Reachable.init, rfl, ?_⟩
  decide

/-! ## Monitor-loop helper lemmas -/

/-- The commands of a loop iteration are exactly those issued by
`check_and_handle_audio`; the backoff accounting adds none. -/
theorem monitorStep_commands (s : LoopState) (inp : TickInput) :
    (monitorStep s inp).commands =
      (check_and_handle_audio s.last_activity inp.config inp).2.2 := by
  cases hr : (check_and_handle_audio s.last_activity inp.config inp).1 with
  | ok u => simp [monitorStep, hr]
  | error e =>
    by_cases h3 : s.consecutive_errors + 1 ≥ 3 <;> simp [monitorStep, hr, h3]

/-- The timer carried to the next iteration is the one produced by
`check_and_handle_audio`. -/
theorem monitorStep_last_activity (s : LoopState) (inp : TickInput) :
    (monitorStep s inp).state.last_activity =
      (check_and_handle_audio s.last_activity inp.config inp).2.1 := by
  cases hr : (check_and_handle_audio s.last_activity inp.config inp).1 with
  | ok u => simp [monitorStep, hr]
  | error e =>
    by_cases h3 : s.consecutive_errors + 1 ≥ 3 <;> simp [monitorStep, hr, h3]

/-- A tick whose sensor does not report active leaves the idle timer
unchanged. -/
theorem monitorStep_last_activity_of_not_active (s : LoopState)
    (inp : TickInput) (h : inp.sensor ≠ .ok true) :
    (monitorStep s inp).state.last_activity = s.last_activity := by
  rw [monitorStep_last_activity]
  cases hsen : inp.sensor with
  | error e => simp [check_and_handle_audio, hsen]
  | ok b =>
    cases b with
    | true => exact absurd hsen h
    | false =>
      by_cases helapsed :
          inp.now - s.last_activity > inp.config.inactivity_timeout
      · cases hd : inp.disconnectResult with
        | ok u => simp [check_and_handle_audio, hsen, helapsed, hd]
        | error e => simp [check_and_handle_audio, hsen, helapsed, hd]
      · simp [check_and_handle_audio, hsen, helapsed]

theorem runMonitor_length (s : LoopState) (l : List TickInput) :
    (runMonitor s l).length = l.length := by
  induction l generalizing s with
  | nil => rfl
  | cons inp rest ih => simp [runMonitor, ih]

/-- Each entry of a run is the step taken at some intermediate loop
state. -/
theorem runMonitor_get (s : LoopState) (l : List TickInput) (i : Nat)
    (hi : i < l.length) :
    ∃ s0 : LoopState,
      (runMonitor s l).get ⟨i, by rw [runMonitor_length]; exact hi⟩ =
        monitorStep s0 (l.get ⟨i, hi⟩) := by
  induction l generalizing s i with
  | nil => exact absurd hi (by simp)
  | cons inp rest ih =>
    cases i with
    | zero => exact ⟨s, rfl⟩
    | succ n =>
      obtain ⟨s0, h0⟩ := ih (monitorStep s inp).state n (by simpa using hi)
      exact ⟨s0, h0⟩

/-- On a trace whose sensor never reports active, each entry of the run is
the step at an intermediate state whose timer still holds the initial
value. -/
theorem runMonitor_get_of_never_active (s : LoopState) (l : List TickInput)
    (hq : ∀ inp ∈ l, inp.sensor ≠ .ok true) (i : Nat) (hi : i < l.length) :
    ∃ s0 : LoopState, s0.last_activity = s.last_activity ∧
      (runMonitor s l).get ⟨i, by rw [runMonitor_length]; exact hi⟩ =
        monitorStep s0 (l.get ⟨i, hi⟩) := by
  induction l generalizing s i with
  | nil => exact absurd hi (by simp)
  | cons inp rest ih =>
    cases i with
    | zero => exact ⟨s, rfl, rfl⟩
    | succ n =>
      obtain ⟨s0, h1, h2⟩ := ih (monitorStep s inp).state
        (fun x hx => hq x (List.mem_cons_of_mem _ hx)) n (by simpa using hi)
      refine ⟨s0, ?_, h2⟩
      rw [h1, monitorStep_last_activity_of_not_active s inp
        (hq inp (List.mem_cons_self inp rest))]

/-- A sample valid policy for concrete witness scenarios: 5-second idle
timeout, auto-connect on, canonical address. -/
def samplePolicy : Config :=
  { inactivity_timeout := 5, auto_connect := true,
    device_address := "AA:BB:CC:DD:EE:FF" }

/-- An inactive tick at time 6 under `samplePolicy`. -/
def sampleIdleTick : TickInput :=
  { config := samplePolicy, now := 6, sensor := .ok false,
    connectResult := .ok (), disconnectResult := .ok () }

/-- An inactive tick at time 1 under `samplePolicy` (within the idle
timeout). -/
def sampleOkTick : TickInput :=
  { config := samplePolicy, now := 1, sensor := .ok false,
    connectResult := .ok (), disconnectResult := .ok () }

/-- A tick whose sensor query fails with an endpoint error. -/
def sampleFailTick : TickInput :=
  { config := samplePolicy, now := 1, sensor := .error .endpointError,
    connectResult := .ok (), disconnectResult := .ok () }

/-! ## Claim C3 — idle-trigger repetition -/

/-- C3 counterexample: with `lastActivityTimestamp = 0` and
`idleTimeout = 5`, an inactive tick at time exactly 5 (= T + D, so the
tick time is ≥ T + D) issues no disconnect: the code requires
`elapsed > idleTimeout` strictly. -/
theorem no_disconnect_at_exact_deadline :
    (monitorStep { last_activity := 0, consecutive_errors := 0 }
        { config := { inactivity_timeout := 5, auto_connect := true,
                      device_address := "AA:BB:CC:DD:EE:FF" },
          now := 5, sensor := .ok false, connectResult := .ok (),
          disconnectResult := .ok () }).commands = []
    ∧ (5 : Nat) ≥ 0 + 5 :=
  ⟨rfl, by omega⟩

/-- C3 (amended): with `lastActivityTimestamp = T` and `idleTimeout = D`,
every tick at a time strictly greater than T + D on which the sensor
reports inactive issues exactly one disconnect command, and the timer is
not reset by the disconnect, so the command repeats on each later such
tick. -/
theorem idle_tick_issues_one_disconnect (s : LoopState) (inp : TickInput)
    (hsen : inp.sensor = .ok false)
    (ht : inp.now > s.last_activity + inp.config.inactivity_timeout) :
    (monitorStep s inp).commands = [.disconnect inp.config.device_address]
    ∧ (monitorStep s inp).state.last_activity = s.last_activity := by
  have helapsed : inp.now - s.last_activity > inp.config.inactivity_timeout :=
    by omega
  rw [monitorStep_commands, monitorStep_last_activity]
  cases hd : inp.disconnectResult with
  | ok u => simp [check_and_handle_audio, hsen, helapsed, hd]
  | error e => simp [check_and_handle_audio, hsen, helapsed, hd]

/-- Witness for `idle_tick_issues_one_disconnect`: timeout 5, timer 0,
inactive tick at time 6. -/
theorem idle_tick_issues_one_disconnect_witness :
    (monitorStep { last_activity := 0, consecutive_errors := 0 }
        sampleIdleTick).commands = [.disconnect "AA:BB:CC:DD:EE:FF"]
    ∧ (monitorStep { last_activity := 0, consecutive_errors := 0 }
        sampleIdleTick).state.last_activity = 0 :=
  idle_tick_issues_one_disconnect { last_activity := 0, consecutive_errors := 0 }
    sampleIdleTick rfl (by decide)

/-! ## Claim C4 — backoff and error-counter accounting -/

/-- C4: on every loop iteration, a fully successful tick resets the
consecutive-error counter to 0 with the baseline 1-second sleep; a failed
tick increments it, and when it thereby reaches 3 the sleep before the
next tick is at least 30 seconds longer than the baseline 1-second tick
and the counter is reset to 0. -/
theorem backoff_and_error_counter (s : LoopState) (inp : TickInput) :
    ((check_and_handle_audio s.last_activity inp.config inp).1.isOk = true →
      (monitorStep s inp).state.consecutive_errors = 0
      ∧ (monitorStep s inp).sleepSeconds = 1)
    ∧ ((check_and_handle_audio s.last_activity inp.config inp).1.isOk = false →
      (s.consecutive_errors + 1 ≥ 3 →
        (monitorStep s inp).state.consecutive_errors = 0
        ∧ (monitorStep s inp).sleepSeconds ≥ 1 + 30)
      ∧ (s.consecutive_errors + 1 < 3 →
        (monitorStep s inp).state.consecutive_errors = s.consecutive_errors + 1
        ∧ (monitorStep s inp).sleepSeconds = 1)) := by
  cases hr : (check_and_handle_audio s.last_activity inp.config inp).1 with
  | ok u =>
    refine ⟨fun _ => ?_, fun hfalse => ?_⟩
    · simp [monitorStep, hr]
    · simp [Except.isOk, Except.toBool] at hfalse
  | error e =>
    refine ⟨fun htrue => ?_, fun _ => ⟨fun h3 => ?_, fun hlt => ?_⟩⟩
    · simp [Except.isOk, Except.toBool] at htrue
    · simp [monitorStep, hr, h3]
    · have h3 : ¬ (s.consecutive_errors + 1 ≥ 3) := by omega
      simp [monitorStep, hr, h3]

/-- Witness for `backoff_and_error_counter`: a successful inactive tick
from a clean state, and a sensor-failure tick that brings the counter from
2 to 3. -/
theorem backoff_and_error_counter_witness :
    ((monitorStep { last_activity := 0, consecutive_errors := 0 }
        sampleOkTick).state.consecutive_errors = 0
      ∧ (monitorStep { last_activity := 0, consecutive_errors := 0 }
          sampleOkTick).sleepSeconds = 1)
    ∧ ((monitorStep { last_activity := 0, consecutive_errors := 2 }
        sampleFailTick).state.consecutive_errors = 0
      ∧ (monitorStep { last_activity := 0, consecutive_errors := 2 }
          sampleFailTick).sleepSeconds ≥ 1 + 30) :=
  ⟨(backoff_and_error_counter { last_activity := 0, consecutive_errors := 0 }
      sampleOkTick).1 (by decide),
   ((backoff_and_error_counter { last_activity := 0, consecutive_errors := 2 }
      sampleFailTick).2 (by decide)).1 (by decide)⟩

/-! ## Claim C6 — sensor failure is a pure failure tick -/

/-- C6: on a tick whose sensor query fails, `check_and_handle_audio`
returns that sensor error (so the loop counts the tick as a failure,
incrementing the consecutive-error counter, which the backoff then resets
when it reaches 3), the idle timer is unchanged, and no connect or
disconnect command is issued. -/
theorem sensor_failure_frame (s : LoopState) (inp : TickInput)
    (e : SensorError) (hs : inp.sensor = .error e) :
    (check_and_handle_audio s.last_activity inp.config inp).1 =
      .error (.sensorError e)
    ∧ (monitorStep s inp).state.last_activity = s.last_activity
    ∧ (monitorStep s inp).commands = []
    ∧ (s.consecutive_errors + 1 < 3 →
        (monitorStep s inp).state.consecutive_errors = s.consecutive_errors + 1)
    ∧ (s.consecutive_errors + 1 ≥ 3 →
        (monitorStep s inp).state.consecutive_errors = 0) := by
  have hc : check_and_handle_audio s.last_activity inp.config inp =
      (.error (.sensorError e), s.last_activity, []) := by
    simp [check_and_handle_audio, hs]
  refine ⟨by rw [hc], ?_, ?_, fun hlt => ?_, fun h3 => ?_⟩
  · rw [monitorStep_last_activity, hc]
  · rw [monitorStep_commands, hc]
  · have h3 : ¬ (s.consecutive_errors + 1 ≥ 3) := by omega
    simp [monitorStep, hc, h3]
  · simp [monitorStep, hc, h3]

/-- Witness for `sensor_failure_frame`: an endpoint error on the first
tick. -/
theorem sensor_failure_frame_witness :
    (check_and_handle_audio 0 samplePolicy sampleFailTick).1 =
      .error (.sensorError .endpointError)
    ∧ (monitorStep { last_activity := 0, consecutive_errors := 0 }
        sampleFailTick).state.last_activity = 0
    ∧ (monitorStep { last_activity := 0, consecutive_errors := 0 }
        sampleFailTick).commands = []
    ∧ (0 + 1 < 3 →
        (monitorStep { last_activity := 0, consecutive_errors := 0 }
          sampleFailTick).state.consecutive_errors = 0 + 1)
    ∧ (0 + 1 ≥ 3 →
        (monitorStep { last_activity := 0, consecutive_errors := 0 }
          sampleFailTick).state.consecutive_errors = 0) :=
  sensor_failure_frame { last_activity := 0, consecutive_errors := 0 }
    sampleFailTick .endpointError rfl

/-- An active tick with auto-connect issues exactly one connect command
to the policy's address and sets the timer to the tick's time, whatever
the connect call's own outcome. -/
theorem monitorStep_active (s : LoopState) (inp : TickInput)
    (hact : inp.sensor = .ok true) (hauto : inp.config.auto_connect = true) :
    (monitorStep s inp).commands = [.connect inp.config.device_address]
    ∧ (monitorStep s inp).state.last_activity = inp.now := by
  rw [monitorStep_commands, monitorStep_last_activity]
  cases hcr : inp.connectResult with
  | ok u => simp [check_and_handle_audio, hact, hauto, hcr]
  | error e => simp [check_and_handle_audio, hact, hauto, hcr]

/-- A tick that is not actively playing issues no command when the
elapsed time has not strictly exceeded the idle timeout. -/
theorem monitorStep_quiet (s : LoopState) (inp : TickInput)
    (hsen : inp.sensor ≠ .ok true)
    (ht : inp.now - s.last_activity ≤ inp.config.inactivity_timeout) :
    (monitorStep s inp).commands = [] := by
  rw [monitorStep_commands]
  cases hv : inp.sensor with
  | error e => simp [check_and_handle_audio, hv]
  | ok b =>
    cases b with
    | true => exact absurd hv hsen
    | false =>
      have hng : ¬ (inp.now - s.last_activity >
          inp.config.inactivity_timeout) := by omega
      simp [check_and_handle_audio, hv, hng]

/-! ## Claim C8 — connect on every active tick -/

/-- An active tick at time 4 under `samplePolicy` whose connect attempt
fails. -/
def sampleActiveTick : TickInput :=
  { config := samplePolicy, now := 4, sensor := .ok true,
    connectResult := .error .deviceNotFound, disconnectResult := .ok () }

/-- C8: on every tick of any run on which the sensor reports active and
the tick's policy snapshot has `auto_connect`, exactly one connect command
to the policy's device address is issued — whatever the earlier ticks and
their actuator outcomes were, and whether or not this tick's connect call
itself fails — and the idle timer is set to that tick's time. -/
theorem connect_issued_on_every_active_tick (s : LoopState)
    (l : List TickInput) (i : Nat) (hi : i < l.length)
    (hact : (l.get ⟨i, hi⟩).sensor = .ok true)
    (hauto : (l.get ⟨i, hi⟩).config.auto_connect = true) :
    ((runMonitor s l).get ⟨i, by rw [runMonitor_length]; exact hi⟩).commands =
      [.connect (l.get ⟨i, hi⟩).config.device_address]
    ∧ ((runMonitor s l).get
        ⟨i, by rw [runMonitor_length]; exact hi⟩).state.last_activity =
      (l.get ⟨i, hi⟩).now := by
  obtain ⟨s0, h0⟩ := runMonitor_get s l i hi
  rw [h0]
  exact monitorStep_active s0 (l.get ⟨i, hi⟩) hact hauto

/-- Witness for `connect_issued_on_every_active_tick`: a one-tick run with
an active sensor and a failing connect attempt. -/
theorem connect_issued_on_every_active_tick_witness :
    ((runMonitor { last_activity := 0, consecutive_errors := 0 }
        [sampleActiveTick]).get ⟨0, by decide⟩).commands =
      [.connect "AA:BB:CC:DD:EE:FF"]
    ∧ ((runMonitor { last_activity := 0, consecutive_errors := 0 }
        [sampleActiveTick]).get ⟨0, by decide⟩).state.last_activity = 4 :=
  connect_issued_on_every_active_tick
    { last_activity := 0, consecutive_errors := 0 } [sampleActiveTick] 0
    (by decide) rfl rfl

/-! ## Claim C9 — no disconnect before the initial timeout -/

/-- C9: `monitor_audio_activity` initializes the timer to the loop's
start time, so on any run whose sensor never reports active, a tick at a
time at most `inactivity_timeout` past the start issues no disconnect
command to any address. -/
theorem no_disconnect_before_initial_timeout (start : Nat)
    (l : List TickInput) (hq : ∀ inp ∈ l, inp.sensor ≠ .ok true)
    (i : Nat) (hi : i < l.length)
    (ht : (l.get ⟨i, hi⟩).now - start ≤
      (l.get ⟨i, hi⟩).config.inactivity_timeout) (a : String) :
    Command.disconnect a ∉
      ((runMonitor (initLoopState start) l).get
        ⟨i, by rw [runMonitor_length]; exact hi⟩).commands := by
  obtain ⟨s0, h1, h2⟩ :=
    runMonitor_get_of_never_active (initLoopState start) l hq i hi
  rw [h2]
  have hs0 : s0.last_activity = start := h1
  rw [monitorStep_quiet s0 (l.get ⟨i, hi⟩) (hq _ (List.get_mem l i hi))
    (by rw [hs0]; omega)]
  exact List.not_mem_nil _

/-- Witness for `no_disconnect_before_initial_timeout`: a one-tick run,
inactive at time 1 with a 5-second timeout from start time 0. -/
theorem no_disconnect_before_initial_timeout_witness :
    Command.disconnect "AA:BB:CC:DD:EE:FF" ∉
      ((runMonitor (initLoopState 0) [sampleOkTick]).get
        ⟨0, by decide⟩).commands :=
  no_disconnect_before_initial_timeout 0 [sampleOkTick]
    (by
      intro inp hm
      rw [List.mem_singleton] at hm
      subst hm
      simp [sampleOkTick])
    0 (by decide) (by decide) "AA:BB:CC:DD:EE:FF"

end Btmnr
